import Mathlib

/-
  Verification development for the turbo-genius chat server.

  The embedding follows `src/main.py` (FastAPI server: prompt building,
  streaming, title generation, session HTTP routes).  The `Session` and
  `SessionManager` classes live in `session.py`, which is imported by
  `main.py` but is not among the repository sources; those operations are
  modelled from the specification (each such definition is marked
  `Modelled from the spec:` in its doc comment).

  External capabilities (the HuggingFace tokenizer, the generation model and
  the summarization pipeline) are out of scope per the spec and appear as
  opaque function parameters: `tok_len` is the measured token count of
  `tokenizer.apply_chat_template(..., tokenize=True)`, `render` is the raw
  text form (`tokenize=False`), and `summarize` maps an excerpt to
  `summarizer(excerpt)[0]["summary_text"]`.
-/

namespace TurboGenius

/-- Message roles: the fixed vocabulary used in the transcripts. -/
inductive Role where
  | system
  | user
  | assistant
  deriving DecidableEq, Repr

/-- An immutable chat message: a role tag plus its text content. -/
structure Message where
  role : Role
  content : String
  deriving DecidableEq, Repr

/-- A session: identity, ordered transcript, and a display title.
In `main.py` these are the fields accessed on the `Session` object
(`session_id`, the message list behind `get_messages`, and `title`). -/
structure Session where
  session_id : Nat
  messages : List Message
  title : String
  deriving DecidableEq, Repr

/-- Modelled from the spec: `session.py` (class `Session`) is not among the
sources.  `add_user_message` appends a user-tagged message at the back of the
transcript. -/
def add_user_message (s : Session) (text : String) : Session :=
  ⟨s.session_id, s.messages ++ [⟨Role.user, text⟩], s.title⟩

/-- Modelled from the spec: `session.py` is missing.  `add_assistant_message`
appends an assistant-tagged message at the back of the transcript. -/
def add_assistant_message (s : Session) (text : String) : Session :=
  ⟨s.session_id, s.messages ++ [⟨Role.assistant, text⟩], s.title⟩

/-- Modelled from the spec: read-only view of the transcript. -/
def get_messages (s : Session) : List Message :=
  s.messages

/-- Modelled from the spec: `truncate_messages` removes the oldest pair of
non-system messages — the two messages immediately after the system message at
index 0 — or the single oldest one if only one remains; it never touches the
system message and keeps the remaining messages in order. -/
def truncate_messages (s : Session) : Session :=
  ⟨s.session_id,
    match s.messages with
    | [] => []
    | sys :: rest => sys :: rest.drop 2,
    s.title⟩

/-- Error vocabulary of the session store (spec section 7). -/
inductive StoreError where
  | NotFound
  deriving DecidableEq, Repr

/-- Modelled from the spec: the process-wide registry owning all sessions,
a mapping from identity to session plus the monotone identity allocator.
The mapping is embedded as an association list. -/
structure SessionManager where
  sessions : List (Nat × Session)
  next_id : Nat
  deriving DecidableEq, Repr

/-- Lookup of an identity in the store's association list. -/
def store_lookup (session_id : Nat) : List (Nat × Session) → Option Session
  | [] => none
  | p :: rest => if p.1 = session_id then some p.2 else store_lookup session_id rest

/-- Removal of an identity from the store's association list. -/
def store_remove (session_id : Nat) : List (Nat × Session) → List (Nat × Session)
  | [] => []
  | p :: rest =>
      if p.1 = session_id then store_remove session_id rest
      else p :: store_remove session_id rest

/-- Replacing the session registered under an identity.  This models the
effect, on the store's view, of mutating the session object in place (Python
mutates the object held by the dictionary; the key set is unchanged). -/
def store_put (session_id : Nat) (s : Session) : List (Nat × Session) → List (Nat × Session)
  | [] => []
  | p :: rest =>
      if p.1 = session_id then (session_id, s) :: store_put session_id s rest
      else p :: store_put session_id s rest

/-- Modelled from the spec: `get(id)` fails with NotFound if the identity is
unknown, and is side-effect-free. -/
def SessionManager.get_session (m : SessionManager) (session_id : Nat) :
    Except StoreError Session :=
  match store_lookup session_id m.sessions with
  | some s => .ok s
  | none => .error .NotFound

/-- Modelled from the spec: `remove(id)` deletes the session if present and is
idempotent — removing an absent identity is not an error (the operation is
total and returns the store). -/
def SessionManager.remove_session (m : SessionManager) (session_id : Nat) :
    SessionManager :=
  ⟨store_remove session_id m.sessions, m.next_id⟩

/-- In-place mutation of a registered session, seen as a store update. -/
def SessionManager.put (m : SessionManager) (session_id : Nat) (s : Session) :
    SessionManager :=
  ⟨store_put session_id s m.sessions, m.next_id⟩

/-- Modelled from the spec: `create()` allocates a fresh identity, registers a
session seeded with the system message and the default title sentinel, and
returns the identity. -/
def SessionManager.get_new_session (m : SessionManager) (system_content : String) :
    SessionManager × Nat :=
  (⟨m.sessions ++ [(m.next_id, ⟨m.next_id, [⟨Role.system, system_content⟩], "New session"⟩)],
      m.next_id + 1⟩,
    m.next_id)

/-- The GET session route (`main.py` lines 130-133): resolves the session and
returns it, threading the store through unchanged (the handler performs no
store mutation). -/
def get_session_route (m : SessionManager) (session_id : Nat) :
    SessionManager × Except StoreError Session :=
  (m, m.get_session session_id)

/-- The DELETE session route (`main.py` lines 140-143): removes the session
and returns nothing. -/
def delete_session_route (m : SessionManager) (session_id : Nat) : SessionManager :=
  m.remove_session session_id

/-- The token budget of `make_prompt`: `int(config.max_position_embeddings * 0.9)`
in `main.py` line 94, i.e. nine tenths of the maximum context length, rounded
down. -/
def token_budget (max_position_embeddings : Nat) : Nat :=
  9 * max_position_embeddings / 10

/-- The render-measure-truncate loop of `main.py` lines 85-102.  `tok_len`
measures the tokenized chat-template rendering, `render` is the raw-text
rendering; if the measured size exceeds the budget the session is truncated
and the function recurses, otherwise the raw rendering is returned together
with the (possibly truncated) session.  The Python recursion is unbounded and
in practice bounded only by the interpreter's recursion limit; `fuel` is that
recursion-depth bound, and `none` models the recursion limit being exhausted
(a `RecursionError`) before a prompt is produced. -/
def make_prompt (tok_len : List Message → Nat) (render : List Message → String)
    (max_position_embeddings : Nat) : Nat → Session → Option (Session × String)
  | 0, _ => none
  | fuel + 1, session =>
      if tok_len (get_messages session) > token_budget max_position_embeddings then
        make_prompt tok_len render max_position_embeddings fuel (truncate_messages session)
      else
        some (session, render (get_messages session))

/-- Instrumented variant of `make_prompt` counting how many render-measure
rounds the loop performs within the given recursion bound (each recursive
call after a failed measure is one more round). -/
def make_prompt_steps (tok_len : List Message → Nat)
    (max_position_embeddings : Nat) : Nat → Session → Nat
  | 0, _ => 0
  | fuel + 1, session =>
      if tok_len (get_messages session) > token_budget max_position_embeddings then
        1 + make_prompt_steps tok_len max_position_embeddings fuel (truncate_messages session)
      else
        1

/-- Python's `sep.join(list)`: empty string for the empty list, the sole
element for a singleton, and the elements interleaved with the separator
otherwise (used by `make_title`, `main.py` line 82). -/
def join_with (sep : String) : List String → String
  | [] => ""
  | [x] => x
  | x :: y :: rest => x ++ sep ++ join_with sep (y :: rest)

/-- The title excerpt and summarization call of `main.py` lines 80-83:
`messages = session.get_messages()[1:3]` (the messages at indices 1 and 2,
i.e. the first one or two non-system messages), joined with a newline and
passed to the summarization engine.  `summarize` stands for the external
pipeline composed with the `[0]["summary_text"]` projection performed by the
caller. -/
def make_title (summarize : String → String) (s : Session) : String :=
  summarize (join_with "\n" ((((get_messages s).drop 1).take 2).map Message.content))

/-- The GET title route (`main.py` lines 145-150): resolves the session,
invokes `make_title`, stores the summary as the session's title, and returns
that title. -/
def get_session_title (summarize : String → String) (m : SessionManager)
    (session_id : Nat) : Except StoreError (SessionManager × String) :=
  match m.get_session session_id with
  | .error e => .error e
  | .ok sess =>
      let t := make_title summarize sess
      .ok (m.put session_id ⟨sess.session_id, sess.messages, t⟩, t)

/-- One observable event of the generation loop in `stream` (`main.py` lines
112-120).  `frag tok`: the engine yields a token, it is accumulated and sent;
`endMark`: the engine yields the `None` end-of-stream marker and the loop
breaks; `engineFail`: the engine raises before another token is consumed;
`sendFail tok`: a token is consumed and accumulated but sending it to the
client raises (client disconnect) — in the source the token is added to
`completion` on line 116 before `send_text` on line 117, so it is kept. -/
inductive StreamEv where
  | frag (tok : String)
  | endMark
  | engineFail
  | sendFail (tok : String)
  deriving DecidableEq, Repr

/-- The `try` body of `stream`: consumes events until the end marker or a
raised exception, returning the accumulated completion text and the list of
frames actually delivered to the client, in order. -/
def run_stream_loop : List StreamEv → String × List String
  | [] => ("", [])
  | .frag tok :: rest =>
      let out := run_stream_loop rest
      (tok ++ out.1, tok :: out.2)
  | .endMark :: _ => ("", [])
  | .engineFail :: _ => ("", [])
  | .sendFail tok :: _ => (tok, [])

/-- The fragments the coordinator actually consumed from the engine before the
stream ended, in order (including a token whose send failed). -/
def produced_frags : List StreamEv → List String
  | [] => []
  | .frag tok :: rest => tok :: produced_frags rest
  | .endMark :: _ => []
  | .engineFail :: _ => []
  | .sendFail tok :: _ => [tok]

/-- Concatenation of a list of fragments, in order. -/
def concat_frags : List String → String
  | [] => ""
  | tok :: rest => tok ++ concat_frags rest

/-- The websocket handler `stream` of `main.py` lines 104-123: resolve the
session, append the user message, build the prompt (possibly truncating), run
the generation loop, and — in the `finally` block — append the accumulated
completion as an assistant message exactly once, however the loop ended.
`none` models the handler raising before the `try` block is entered (unknown
session, or the prompt recursion exhausting the recursion limit). -/
def stream (tok_len : List Message → Nat) (render : List Message → String)
    (max_position_embeddings fuel : Nat) (m : SessionManager) (session_id : Nat)
    (message : String) (evs : List StreamEv) : Option (SessionManager × List String) :=
  match m.get_session session_id with
  | .error _ => none
  | .ok sess =>
      let s1 := add_user_message sess message
      match make_prompt tok_len render max_position_embeddings fuel s1 with
      | none => none
      | some (s2, _pr) =>
          let out := run_stream_loop evs
          some (m.put session_id (add_assistant_message s2 out.1), out.2)

/-- A shared-session mutation performed by a `stream` handler: the user-message
append of line 109 or the assistant-message append of line 122.  Between the
two, the handler suspends at `await` points (`send_text`, `asyncio.sleep`, the
async generator), so on the single event loop the mutations of two concurrent
handlers for the same session may interleave in any order. -/
inductive SessAct where
  | userMsg (text : String)
  | asstMsg (text : String)
  deriving DecidableEq, Repr

/-- Applying one handler mutation to the shared session. -/
def apply_act (s : Session) : SessAct → Session
  | .userMsg text => add_user_message s text
  | .asstMsg text => add_assistant_message s text

/-- Applying a schedule of handler mutations, in order. -/
def apply_acts (s : Session) (l : List SessAct) : Session :=
  l.foldl apply_act s

/-- The session mutations of one `stream` handler, in program order: append
the user prompt, then (after the generation loop) append the completion. -/
def handler_trace (prompt completion : String) : List SessAct :=
  [.userMsg prompt, .asstMsg completion]

/-- Decides whether `cs` is an interleaving of the two sequences `as` and
`bs` (each kept in its own order). -/
def is_interleaving (as bs cs : List SessAct) : Bool :=
  match cs with
  | [] => as.isEmpty && bs.isEmpty
  | c :: cs2 =>
      (match as with
       | a :: as2 => a == c && is_interleaving as2 bs cs2
       | [] => false)
      ||
      (match bs with
       | b :: bs2 => b == c && is_interleaving as bs2 cs2
       | [] => false)

lemma truncate_messages_cons (sid : Nat) (ttl : String) (sys : Message)
    (rest : List Message) :
    truncate_messages ⟨sid, sys :: rest, ttl⟩ = ⟨sid, sys :: rest.drop 2, ttl⟩ := rfl

lemma truncate_messages_iter (k sid : Nat) (ttl : String) (sys : Message)
    (rest : List Message) :
    truncate_messages^[k] ⟨sid, sys :: rest, ttl⟩ = ⟨sid, sys :: rest.drop (2 * k), ttl⟩ := by
  induction k generalizing rest with
  | zero => simp
  | succ n ih =>
      rw [Function.iterate_succ_apply, truncate_messages_cons, ih (rest.drop 2),
        List.drop_drop]
      have h2 : 2 + 2 * n = 2 * (n + 1) := by omega
      rw [h2]

lemma make_prompt_of_fits (tok_len : List Message → Nat)
    (render : List Message → String) (mp fuel : Nat) (s : Session)
    (h : tok_len (get_messages s) ≤ token_budget mp) :
    make_prompt tok_len render mp (fuel + 1) s = some (s, render (get_messages s)) := by
  have hn : ¬ tok_len (get_messages s) > token_budget mp := by omega
  simp [make_prompt, hn]

lemma make_prompt_terminates (tok_len : List Message → Nat)
    (render : List Message → String) (mp sid : Nat) (ttl : String) (sys : Message)
    (hsys : tok_len [sys] ≤ token_budget mp) :
    ∀ fuel rest, rest.length < fuel →
      ∃ s2 pr, make_prompt tok_len render mp fuel ⟨sid, sys :: rest, ttl⟩ = some (s2, pr) ∧
        tok_len (get_messages s2) ≤ token_budget mp := by
  intro fuel
  induction fuel with
  | zero => intro rest h; omega
  | succ n ih =>
      intro rest hlen
      by_cases hfit : tok_len (get_messages ⟨sid, sys :: rest, ttl⟩) ≤ token_budget mp
      · exact ⟨_, _, make_prompt_of_fits tok_len render mp n _ hfit, hfit⟩
      · have hgt : tok_len (get_messages ⟨sid, sys :: rest, ttl⟩) > token_budget mp := by
          omega
        have hrest : rest ≠ [] := by
          intro hnil
          apply hfit
          rw [hnil]
          exact hsys
        have hlen2 : (rest.drop 2).length < n := by
          have : rest.length ≠ 0 := by
            intro h0
            exact hrest (List.eq_nil_of_length_eq_zero h0)
          rw [List.length_drop]
          omega
        obtain ⟨s2, pr, heq, hle⟩ := ih (rest.drop 2) hlen2
        refine ⟨s2, pr, ?_, hle⟩
        simp only [make_prompt, if_pos hgt, truncate_messages_cons]
        exact heq

lemma make_prompt_diverges (tok_len : List Message → Nat)
    (render : List Message → String) (mp sid : Nat) (ttl : String) (sys : Message)
    (hsys : ∀ more : List Message, token_budget mp < tok_len (sys :: more)) :
    ∀ fuel rest,
      make_prompt tok_len render mp fuel ⟨sid, sys :: rest, ttl⟩ = none ∧
      make_prompt_steps tok_len mp fuel ⟨sid, sys :: rest, ttl⟩ = fuel := by
  intro fuel
  induction fuel with
  | zero => intro rest; exact ⟨rfl, rfl⟩
  | succ n ih =>
      intro rest
      have hgt : tok_len (get_messages ⟨sid, sys :: rest, ttl⟩) > token_budget mp :=
        hsys rest
      obtain ⟨h1, h2⟩ := ih (rest.drop 2)
      constructor
      · simp only [make_prompt, if_pos hgt, truncate_messages_cons]
        exact h1
      · simp only [make_prompt_steps, if_pos hgt, truncate_messages_cons]
        omega

lemma make_prompt_shape (tok_len : List Message → Nat)
    (render : List Message → String) (mp : Nat) :
    ∀ fuel s s2 pr, make_prompt tok_len render mp fuel s = some (s2, pr) →
      ∃ k, s2 = truncate_messages^[k] s ∧ pr = render (get_messages s2) := by
  intro fuel
  induction fuel with
  | zero => intro s s2 pr h; simp [make_prompt] at h
  | succ n ih =>
      intro s s2 pr h
      by_cases hgt : tok_len (get_messages s) > token_budget mp
      · simp only [make_prompt, if_pos hgt] at h
        obtain ⟨k, hk, hpr⟩ := ih (truncate_messages s) s2 pr h
        refine ⟨k + 1, ?_, hpr⟩
        rw [Function.iterate_succ_apply]
        exact hk
      · simp only [make_prompt, if_neg hgt, Option.some_inj, Prod.mk.injEq] at h
        exact ⟨0, h.1.symm, by rw [← h.2, ← h.1]⟩

lemma store_lookup_remove (session_id : Nat) (l : List (Nat × Session)) :
    store_lookup session_id (store_remove session_id l) = none := by
  induction l with
  | nil => rfl
  | cons p rest ih =>
      by_cases h : p.1 = session_id
      · simp [store_remove, h, ih]
      · simp [store_remove, store_lookup, h, ih]

lemma store_remove_of_lookup_none (session_id : Nat) (l : List (Nat × Session))
    (h : store_lookup session_id l = none) : store_remove session_id l = l := by
  induction l with
  | nil => rfl
  | cons p rest ih =>
      by_cases hp : p.1 = session_id
      · simp [store_lookup, hp] at h
      · simp [store_lookup, hp] at h
        simp [store_remove, hp, ih h]

lemma store_lookup_put (session_id : Nat) (s s2 : Session) (l : List (Nat × Session))
    (h : store_lookup session_id l = some s) :
    store_lookup session_id (store_put session_id s2 l) = some s2 := by
  induction l with
  | nil => simp [store_lookup] at h
  | cons p rest ih =>
      by_cases hp : p.1 = session_id
      · simp [store_put, hp, store_lookup]
      · simp [store_lookup, hp] at h
        simp [store_put, hp, store_lookup, ih h]

lemma run_stream_loop_fst (evs : List StreamEv) :
    (run_stream_loop evs).1 = concat_frags (produced_frags evs) := by
  induction evs with
  | nil => rfl
  | cons e rest ih =>
      cases e with
      | frag tok => simp [run_stream_loop, produced_frags, concat_frags, ih]
      | endMark => rfl
      | engineFail => rfl
      | sendFail tok => simp [run_stream_loop, produced_frags, concat_frags]

lemma run_stream_loop_happy (frags : List String) :
    run_stream_loop (frags.map StreamEv.frag ++ [StreamEv.endMark]) =
      (concat_frags frags, frags) := by
  induction frags with
  | nil => rfl
  | cons tok rest ih => simp [run_stream_loop, concat_frags, ih]

lemma get_session_ok_lookup (m : SessionManager) (session_id : Nat) (sess : Session)
    (h : m.get_session session_id = .ok sess) :
    store_lookup session_id m.sessions = some sess := by
  unfold SessionManager.get_session at h
  cases hc : store_lookup session_id m.sessions with
  | none => rw [hc] at h; exact Except.noConfusion h
  | some s0 => rw [hc] at h; rw [Except.ok.injEq] at h; rw [h]

lemma get_session_put (m : SessionManager) (session_id : Nat) (sess s2 : Session)
    (h : m.get_session session_id = .ok sess) :
    (m.put session_id s2).get_session session_id = .ok s2 := by
  have hl := get_session_ok_lookup m session_id sess h
  simp only [SessionManager.get_session, SessionManager.put,
    store_lookup_put session_id sess s2 m.sessions hl]

/-- Claim C1 (amended).  For every session whose transcript starts with the
system message: if the system message alone fits the budget, the
render-measure-truncate loop terminates within a recursion depth of one more
than the number of non-system messages, and the prompt it returns measures at
most the configured budget (nine tenths of the maximum context length,
rounded down).  If instead every transcript headed by the system message
measures over budget — in particular when even the system message alone does
not fit — `make_prompt` never returns: truncation makes no progress, each
available recursion level performs one more render-measure round, and the
request can only die of the interpreter's recursion limit; there is no
explicit fatal-configuration check and the condition is retried, not failed
fast. -/
theorem make_prompt_budget_policy (tok_len : List Message → Nat)
    (render : List Message → String) (mp sid : Nat) (ttl : String) (sys : Message)
    (rest : List Message) :
    (tok_len [sys] ≤ token_budget mp →
      ∀ fuel, rest.length < fuel →
        ∃ s2 pr, make_prompt tok_len render mp fuel ⟨sid, sys :: rest, ttl⟩ = some (s2, pr) ∧
          tok_len (get_messages s2) ≤ token_budget mp) ∧
    ((∀ more : List Message, token_budget mp < tok_len (sys :: more)) →
      ∀ fuel, make_prompt tok_len render mp fuel ⟨sid, sys :: rest, ttl⟩ = none ∧
        make_prompt_steps tok_len mp fuel ⟨sid, sys :: rest, ttl⟩ = fuel) := by
  constructor
  · intro hsys fuel hlen
    exact make_prompt_terminates tok_len render mp sid ttl sys hsys fuel rest hlen
  · intro hover fuel
    exact make_prompt_diverges tok_len render mp sid ttl sys hover fuel rest

/-- Witness for the C1 theorem: with a one-token-per-message measure and
`max_position_embeddings = 2` (budget 1), a transcript of one system and two
non-system messages yields a prompt within budget at recursion depth 3; with
a constant oversize measure the loop returns nothing and burns all 7 allowed
recursion levels. -/
theorem make_prompt_budget_policy_witness :
    (∃ s2 pr, make_prompt (fun l => l.length) (fun _ => "p") 2 3
        ⟨0, [⟨Role.system, "S"⟩, ⟨Role.user, "u"⟩, ⟨Role.assistant, "a"⟩], "t"⟩ =
          some (s2, pr) ∧
        (fun l : List Message => l.length) (get_messages s2) ≤ token_budget 2) ∧
    (make_prompt (fun _ => 5) (fun _ => "p") 2 7 ⟨0, [⟨Role.system, "S"⟩], "t"⟩ = none ∧
      make_prompt_steps (fun _ => 5) 2 7 ⟨0, [⟨Role.system, "S"⟩], "t"⟩ = 7) := by
  constructor
  · exact (make_prompt_budget_policy (fun l => l.length) (fun _ => "p") 2 0 "t"
      ⟨Role.system, "S"⟩ [⟨Role.user, "u"⟩, ⟨Role.assistant, "a"⟩]).1 (by decide) 3 (by decide)
  · exact (make_prompt_budget_policy (fun _ => 5) (fun _ => "p") 2 0 "t"
      ⟨Role.system, "S"⟩ []).2 (fun _ => by decide) 7

/-- Counterexample to claim C1 as stated.  With a measure under which even the
system message alone exceeds the budget, the code does not treat the
condition as a fatal configuration error instead of retrying: given a
recursion allowance of 30 levels it performs 30 render-measure rounds — 29
retries after the first failed measure, truncation making no progress — and
still produces no prompt, so in Python the request ends in a `RecursionError`
reached by retrying, not in an explicit configuration-error check. -/
theorem make_prompt_retries_oversized_system :
    make_prompt (fun _ => 5) (fun _ => "p") 2 30 ⟨0, [⟨Role.system, "S"⟩], "t"⟩ = none ∧
    make_prompt_steps (fun _ => 5) 2 30 ⟨0, [⟨Role.system, "S"⟩], "t"⟩ = 30 ∧
    1 < make_prompt_steps (fun _ => 5) 2 30 ⟨0, [⟨Role.system, "S"⟩], "t"⟩ := by
  exact ⟨rfl, rfl, by decide⟩

/-- Claim C7: `make_prompt` mutates the session only through
`truncate_messages` — whenever it returns, the resulting session is an
iterate of `truncate_messages` applied to the input session and the returned
prompt is the rendering of that resulting transcript; in particular, when the
transcript already measures within the budget, the rendering is returned at
once and the session is completely unchanged. -/
theorem make_prompt_frame (tok_len : List Message → Nat)
    (render : List Message → String) (mp fuel : Nat) (s : Session) :
    (tok_len (get_messages s) ≤ token_budget mp →
      make_prompt tok_len render mp (fuel + 1) s = some (s, render (get_messages s))) ∧
    (∀ s2 pr, make_prompt tok_len render mp fuel s = some (s2, pr) →
      ∃ k, s2 = truncate_messages^[k] s ∧ pr = render (get_messages s2)) := by
  constructor
  · intro h
    exact make_prompt_of_fits tok_len render mp fuel s h
  · intro s2 pr h
    exact make_prompt_shape tok_len render mp fuel s s2 pr h

/-- Witness for the C7 theorem: a within-budget one-message transcript is
returned unchanged at depth 1, and the result is the 0-th truncation
iterate. -/
theorem make_prompt_frame_witness :
    (make_prompt (fun l => l.length) (fun _ => "p") 20 1 ⟨0, [⟨Role.system, "S"⟩], "t"⟩ =
      some (⟨0, [⟨Role.system, "S"⟩], "t"⟩, "p")) ∧
    ∃ k, (⟨0, [⟨Role.system, "S"⟩], "t"⟩ : Session) =
        truncate_messages^[k] ⟨0, [⟨Role.system, "S"⟩], "t"⟩ ∧
      "p" = (fun _ : List Message => "p")
        (get_messages (⟨0, [⟨Role.system, "S"⟩], "t"⟩ : Session)) := by
  constructor
  · exact (make_prompt_frame (fun l => l.length) (fun _ => "p") 20 0
      ⟨0, [⟨Role.system, "S"⟩], "t"⟩).1 (by decide)
  · exact (make_prompt_frame (fun l => l.length) (fun _ => "p") 20 1
      ⟨0, [⟨Role.system, "S"⟩], "t"⟩).2 ⟨0, [⟨Role.system, "S"⟩], "t"⟩ "p" rfl

/-- Claim C4: one `truncate_messages` call on a transcript headed by the
system message removes exactly the two oldest non-system messages from the
front (whole messages only, the system message kept, the order of the rest
preserved — with a single non-system message only that one is removed, since
dropping two from a one-element tail drops one), strictly decreases the
message count whenever a non-system message remains, and starting from
`n ≥ 1` non-system messages exactly `⌈n / 2⌉ = (n + 1) / 2` calls — and no
fewer — leave only the system message. -/
theorem truncate_messages_policy (sid : Nat) (ttl : String) (sys : Message)
    (rest : List Message) :
    (truncate_messages ⟨sid, sys :: rest, ttl⟩ = ⟨sid, sys :: rest.drop 2, ttl⟩) ∧
    (rest ≠ [] →
      (truncate_messages ⟨sid, sys :: rest, ttl⟩).messages.length <
        (sys :: rest).length) ∧
    (truncate_messages^[(rest.length + 1) / 2] ⟨sid, sys :: rest, ttl⟩ =
      ⟨sid, [sys], ttl⟩) ∧
    (∀ k, k < (rest.length + 1) / 2 →
      truncate_messages^[k] ⟨sid, sys :: rest, ttl⟩ ≠ ⟨sid, [sys], ttl⟩) := by
  refine ⟨rfl, ?_, ?_, ?_⟩
  · intro h
    have h0 : rest.length ≠ 0 := fun hz => h (List.eq_nil_of_length_eq_zero hz)
    have h1 : (truncate_messages ⟨sid, sys :: rest, ttl⟩).messages =
        sys :: rest.drop 2 := rfl
    rw [h1]
    simp only [List.length_cons, List.length_drop]
    omega
  · rw [truncate_messages_iter]
    have hnil : rest.drop (2 * ((rest.length + 1) / 2)) = [] := by
      apply List.drop_eq_nil_of_le
      omega
    rw [hnil]
  · intro k hk
    rw [truncate_messages_iter]
    intro heq
    have h2 : sys :: rest.drop (2 * k) = [sys] := congrArg Session.messages heq
    have h3 : rest.drop (2 * k) = [] := by injection h2
    have h4 : rest.length - 2 * k = 0 := by
      rw [← List.length_drop, h3]
      rfl
    omega

/-- Witness for the C4 theorem on a transcript with three non-system
messages: one call strictly shrinks it, two calls (`⌈3 / 2⌉`) leave only the
system message, and one call does not suffice. -/
theorem truncate_messages_policy_witness :
    ((truncate_messages ⟨7, [⟨Role.system, "S"⟩, ⟨Role.user, "a"⟩,
        ⟨Role.assistant, "b"⟩, ⟨Role.user, "c"⟩], "t"⟩).messages.length <
      (([⟨Role.system, "S"⟩, ⟨Role.user, "a"⟩, ⟨Role.assistant, "b"⟩,
        ⟨Role.user, "c"⟩] : List Message)).length) ∧
    (truncate_messages^[2] ⟨7, [⟨Role.system, "S"⟩, ⟨Role.user, "a"⟩,
        ⟨Role.assistant, "b"⟩, ⟨Role.user, "c"⟩], "t"⟩ =
      ⟨7, [⟨Role.system, "S"⟩], "t"⟩) ∧
    truncate_messages^[1] ⟨7, [⟨Role.system, "S"⟩, ⟨Role.user, "a"⟩,
        ⟨Role.assistant, "b"⟩, ⟨Role.user, "c"⟩], "t"⟩ ≠
      ⟨7, [⟨Role.system, "S"⟩], "t"⟩ := by
  refine ⟨?_, ?_, ?_⟩
  · exact (truncate_messages_policy 7 "t" ⟨Role.system, "S"⟩
      [⟨Role.user, "a"⟩, ⟨Role.assistant, "b"⟩, ⟨Role.user, "c"⟩]).2.1 (by decide)
  · exact (truncate_messages_policy 7 "t" ⟨Role.system, "S"⟩
      [⟨Role.user, "a"⟩, ⟨Role.assistant, "b"⟩, ⟨Role.user, "c"⟩]).2.2.1
  · exact (truncate_messages_policy 7 "t" ⟨Role.system, "S"⟩
      [⟨Role.user, "a"⟩, ⟨Role.assistant, "b"⟩, ⟨Role.user, "c"⟩]).2.2.2 1 (by decide)

/-- Claim C2: however the generation loop ends — the engine's end-of-stream
marker, an engine failure mid-stream, or a client disconnect while sending —
a `stream` request that reaches the generation stage appends the accumulated
completion text to the session as exactly one assistant message (the
`finally` block of lines 121-122), and that text is the concatenation of
exactly the fragments consumed from the engine before the stream ended:
possibly empty, possibly a strict prefix of the intended response, never
discarding a fragment already produced. -/
theorem stream_persists_completion_once (tok_len : List Message → Nat)
    (render : List Message → String) (mp fuel : Nat) (m m2 : SessionManager)
    (session_id : Nat) (message : String) (evs : List StreamEv)
    (frames : List String) (sess : Session)
    (hget : m.get_session session_id = .ok sess)
    (hrun : stream tok_len render mp fuel m session_id message evs = some (m2, frames)) :
    ∃ s2 pr,
      make_prompt tok_len render mp fuel (add_user_message sess message) = some (s2, pr) ∧
      m2 = m.put session_id
        (add_assistant_message s2 (concat_frags (produced_frags evs))) ∧
      m2.get_session session_id =
        .ok ⟨s2.session_id,
          s2.messages ++ [⟨Role.assistant, concat_frags (produced_frags evs)⟩],
          s2.title⟩ := by
  simp only [stream, hget] at hrun
  cases hmp : make_prompt tok_len render mp fuel (add_user_message sess message) with
  | none =>
      rw [hmp] at hrun
      exact Option.noConfusion hrun
  | some val =>
      obtain ⟨s2, pr⟩ := val
      rw [hmp] at hrun
      simp only [Option.some_inj, Prod.mk.injEq] at hrun
      obtain ⟨hm2, _⟩ := hrun
      refine ⟨s2, pr, rfl, ?_, ?_⟩
      · rw [← hm2, run_stream_loop_fst]
      · rw [← hm2, run_stream_loop_fst]
        exact get_session_put m session_id sess _ hget

/-- Witness for the C2 theorem: a stream whose generation loop consumes the
fragment "a" and then loses the client while sending "b" persists exactly
"ab" as the single appended assistant message. -/
theorem stream_persists_completion_once_witness :
    ∃ s2 pr,
      make_prompt (fun _ => 0) (fun _ => "r") 10 1
        (add_user_message ⟨1, [⟨Role.system, "S"⟩], "t"⟩ "hi") = some (s2, pr) ∧
      (⟨[(1, ⟨1, [⟨Role.system, "S"⟩, ⟨Role.user, "hi"⟩, ⟨Role.assistant, "ab"⟩], "t"⟩)], 2⟩ :
          SessionManager) =
        SessionManager.put ⟨[(1, ⟨1, [⟨Role.system, "S"⟩], "t"⟩)], 2⟩ 1
          (add_assistant_message s2 (concat_frags (produced_frags
            [StreamEv.frag "a", StreamEv.sendFail "b", StreamEv.frag "zz"]))) ∧
      SessionManager.get_session
          (⟨[(1, ⟨1, [⟨Role.system, "S"⟩, ⟨Role.user, "hi"⟩, ⟨Role.assistant, "ab"⟩],
            "t"⟩)], 2⟩ : SessionManager) 1 =
        .ok ⟨s2.session_id,
          s2.messages ++ [⟨Role.assistant, concat_frags (produced_frags
            [StreamEv.frag "a", StreamEv.sendFail "b", StreamEv.frag "zz"])⟩],
          s2.title⟩ :=
  stream_persists_completion_once (fun _ => 0) (fun _ => "r") 10 1
    ⟨[(1, ⟨1, [⟨Role.system, "S"⟩], "t"⟩)], 2⟩
    ⟨[(1, ⟨1, [⟨Role.system, "S"⟩, ⟨Role.user, "hi"⟩, ⟨Role.assistant, "ab"⟩], "t"⟩)], 2⟩
    1 "hi" [StreamEv.frag "a", StreamEv.sendFail "b", StreamEv.frag "zz"] ["a"]
    ⟨1, [⟨Role.system, "S"⟩], "t"⟩ rfl (by decide)

/-- Claim C3 (amended): on an existing session, when the client sends prompt
`p`, the engine yields fragments `f1..fn` followed by the end marker, and the
transcript extended with the user message already measures within the token
budget (so no truncation is triggered), the client receives exactly `f1..fn`
as outbound frames in order — the end marker is not forwarded — and after the
stream the session's transcript is the prior transcript extended by the user
message `p` and an assistant message holding the concatenation `f1 ++ ... ++
fn`.  (Without the within-budget proviso the prior transcript may be
truncated first; see the counterexample.) -/
theorem stream_happy_path (tok_len : List Message → Nat)
    (render : List Message → String) (mp fuel : Nat) (m : SessionManager)
    (session_id : Nat) (p : String) (frags : List String) (sess : Session)
    (hget : m.get_session session_id = .ok sess)
    (hfit : tok_len (sess.messages ++ [⟨Role.user, p⟩]) ≤ token_budget mp) :
    stream tok_len render mp (fuel + 1) m session_id p
        (frags.map StreamEv.frag ++ [StreamEv.endMark]) =
      some (m.put session_id
          ⟨sess.session_id,
            sess.messages ++ [⟨Role.user, p⟩, ⟨Role.assistant, concat_frags frags⟩],
            sess.title⟩,
        frags) ∧
    (m.put session_id
        ⟨sess.session_id,
          sess.messages ++ [⟨Role.user, p⟩, ⟨Role.assistant, concat_frags frags⟩],
          sess.title⟩).get_session session_id =
      .ok ⟨sess.session_id,
        sess.messages ++ [⟨Role.user, p⟩, ⟨Role.assistant, concat_frags frags⟩],
        sess.title⟩ := by
  have hfit2 : tok_len (get_messages (add_user_message sess p)) ≤ token_budget mp := hfit
  constructor
  · simp only [stream, hget]
    rw [make_prompt_of_fits tok_len render mp fuel _ hfit2, run_stream_loop_happy]
    simp [add_user_message, add_assistant_message]
  · exact get_session_put m session_id sess _ hget

/-- Witness for the C3 theorem: prompt "Hello" and fragments
["Hi", " there"] on a fresh one-message session within budget. -/
theorem stream_happy_path_witness :
    stream (fun _ => 0) (fun _ => "r") 10 1
        ⟨[(1, ⟨1, [⟨Role.system, "S"⟩], "t"⟩)], 2⟩ 1 "Hello"
        ([ "Hi", " there" ].map StreamEv.frag ++ [StreamEv.endMark]) =
      some (SessionManager.put ⟨[(1, ⟨1, [⟨Role.system, "S"⟩], "t"⟩)], 2⟩ 1
          ⟨1, [⟨Role.system, "S"⟩] ++ [⟨Role.user, "Hello"⟩,
            ⟨Role.assistant, concat_frags ["Hi", " there"]⟩], "t"⟩,
        ["Hi", " there"]) ∧
    (SessionManager.put ⟨[(1, ⟨1, [⟨Role.system, "S"⟩], "t"⟩)], 2⟩ 1
        ⟨1, [⟨Role.system, "S"⟩] ++ [⟨Role.user, "Hello"⟩,
          ⟨Role.assistant, concat_frags ["Hi", " there"]⟩], "t"⟩).get_session 1 =
      .ok ⟨1, [⟨Role.system, "S"⟩] ++ [⟨Role.user, "Hello"⟩,
        ⟨Role.assistant, concat_frags ["Hi", " there"]⟩], "t"⟩ :=
  stream_happy_path (fun _ => 0) (fun _ => "r") 10 0
    ⟨[(1, ⟨1, [⟨Role.system, "S"⟩], "t"⟩)], 2⟩ 1 "Hello" ["Hi", " there"]
    ⟨1, [⟨Role.system, "S"⟩], "t"⟩ rfl (by decide)

/-- Counterexample to claim C3 as stated.  On a session whose transcript is
over the token budget once the user message is appended, `make_prompt`
truncates the transcript before generation: the client still receives exactly
the engine's fragments in order, but the final transcript is NOT the prior
transcript extended by the user and assistant messages — the two oldest
non-system messages are gone.  Here the measure counts one token per message
and `max_position_embeddings = 3` gives budget 2. -/
theorem stream_happy_path_cex :
    stream (fun l => l.length) (fun _ => "r") 3 5
        ⟨[(1, ⟨1, [⟨Role.system, "S"⟩, ⟨Role.user, "old-q"⟩, ⟨Role.assistant, "old-a"⟩],
          "t"⟩)], 2⟩ 1 "Hello"
        [StreamEv.frag "Hi", StreamEv.frag " there", StreamEv.endMark] =
      some (⟨[(1, ⟨1, [⟨Role.system, "S"⟩, ⟨Role.user, "Hello"⟩,
          ⟨Role.assistant, "Hi there"⟩], "t"⟩)], 2⟩, ["Hi", " there"]) ∧
    ([⟨Role.system, "S"⟩, ⟨Role.user, "Hello"⟩, ⟨Role.assistant, "Hi there"⟩] :
        List Message) ≠
      [⟨Role.system, "S"⟩, ⟨Role.user, "old-q"⟩, ⟨Role.assistant, "old-a"⟩] ++
        [⟨Role.user, "Hello"⟩, ⟨Role.assistant, "Hi there"⟩] := by
  exact ⟨by decide, by decide⟩

/-- Claim C6: the title route takes the messages at transcript indices 1 and
2 (the first one or two non-system messages), joins their contents with a
newline, passes the excerpt to the summarization engine, persists the
engine's output as the session's title — transcript and identity untouched —
and returns that very title string. -/
theorem get_session_title_persists (summarize : String → String)
    (m : SessionManager) (session_id : Nat) (sess : Session)
    (h : m.get_session session_id = .ok sess) :
    ∃ t, t = summarize (join_with "\n"
        ((((get_messages sess).drop 1).take 2).map Message.content)) ∧
      get_session_title summarize m session_id =
        .ok (m.put session_id ⟨sess.session_id, sess.messages, t⟩, t) ∧
      (m.put session_id ⟨sess.session_id, sess.messages, t⟩).get_session session_id =
        .ok ⟨sess.session_id, sess.messages, t⟩ := by
  refine ⟨make_title summarize sess, rfl, ?_, ?_⟩
  · unfold get_session_title
    rw [h]
  · exact get_session_put m session_id sess _ h

/-- Witness for the C6 theorem: with the identity summarizer on a session
holding one user message "hi there", the persisted and returned title is the
excerpt itself. -/
theorem get_session_title_persists_witness :
    ∃ t, t = (fun x : String => x) (join_with "\n"
        ((((get_messages ⟨1, [⟨Role.system, "S"⟩, ⟨Role.user, "hi there"⟩,
          ⟨Role.assistant, "x"⟩], "New session"⟩).drop 1).take 2).map Message.content)) ∧
      get_session_title (fun x => x)
          ⟨[(1, ⟨1, [⟨Role.system, "S"⟩, ⟨Role.user, "hi there"⟩, ⟨Role.assistant, "x"⟩],
            "New session"⟩)], 2⟩ 1 =
        .ok (SessionManager.put
            ⟨[(1, ⟨1, [⟨Role.system, "S"⟩, ⟨Role.user, "hi there"⟩, ⟨Role.assistant, "x"⟩],
              "New session"⟩)], 2⟩ 1
            ⟨1, [⟨Role.system, "S"⟩, ⟨Role.user, "hi there"⟩, ⟨Role.assistant, "x"⟩], t⟩, t) ∧
      (SessionManager.put
          ⟨[(1, ⟨1, [⟨Role.system, "S"⟩, ⟨Role.user, "hi there"⟩, ⟨Role.assistant, "x"⟩],
            "New session"⟩)], 2⟩ 1
          ⟨1, [⟨Role.system, "S"⟩, ⟨Role.user, "hi there"⟩, ⟨Role.assistant, "x"⟩],
            t⟩).get_session 1 =
        .ok ⟨1, [⟨Role.system, "S"⟩, ⟨Role.user, "hi there"⟩, ⟨Role.assistant, "x"⟩], t⟩ := by
  have hs : SessionManager.get_session
      ⟨[(1, ⟨1, [⟨Role.system, "S"⟩, ⟨Role.user, "hi there"⟩, ⟨Role.assistant, "x"⟩],
        "New session"⟩)], 2⟩ 1 =
      .ok ⟨1, [⟨Role.system, "S"⟩, ⟨Role.user, "hi there"⟩, ⟨Role.assistant, "x"⟩],
        "New session"⟩ := rfl
  exact get_session_title_persists (fun x => x)
    ⟨[(1, ⟨1, [⟨Role.system, "S"⟩, ⟨Role.user, "hi there"⟩, ⟨Role.assistant, "x"⟩],
      "New session"⟩)], 2⟩ 1
    ⟨1, [⟨Role.system, "S"⟩, ⟨Role.user, "hi there"⟩, ⟨Role.assistant, "x"⟩],
      "New session"⟩ hs

/-- Claim C10: `make_title` is total on every session — the `[1:3]` slice,
embedded as `take 2` after `drop 1`, yields at most two messages and never
raises — and on a session holding only the system message the summarization
engine is invoked on the empty string; with exactly one non-system message it
is invoked on that message's content alone. -/
theorem make_title_total (summarize : String → String) (sid : Nat) (ttl : String)
    (sys m1 : Message) :
    make_title summarize ⟨sid, [sys], ttl⟩ = summarize "" ∧
    make_title summarize ⟨sid, [sys, m1], ttl⟩ = summarize m1.content ∧
    ∀ s : Session,
      ((((get_messages s).drop 1).take 2).map Message.content).length ≤ 2 := by
  refine ⟨rfl, rfl, ?_⟩
  intro s
  rw [List.length_map, List.length_take]
  omega

/-- Claim C8: `get_session` on any identity absent from the store — in
particular on an identity that was just deleted — fails with NotFound, and
the GET session route is side-effect-free: it returns the store unchanged
alongside the lookup result. -/
theorem get_session_notfound (m : SessionManager) (session_id : Nat) :
    (store_lookup session_id m.sessions = none →
      m.get_session session_id = .error .NotFound) ∧
    ((m.remove_session session_id).get_session session_id = .error .NotFound) ∧
    (get_session_route m session_id = (m, m.get_session session_id)) := by
  refine ⟨?_, ?_, rfl⟩
  · intro h
    unfold SessionManager.get_session
    rw [h]
  · simp only [SessionManager.get_session, SessionManager.remove_session,
      store_lookup_remove]

/-- Witness for the C8 theorem: identity 42 is unknown to the empty store,
and is unknown again right after being removed from a store that held it. -/
theorem get_session_notfound_witness :
    (SessionManager.get_session ⟨[], 0⟩ 42 = .error .NotFound) ∧
    ((SessionManager.remove_session
        ⟨[(42, ⟨42, [⟨Role.system, "S"⟩], "t"⟩)], 43⟩ 42).get_session 42 =
      .error .NotFound) :=
  ⟨(get_session_notfound ⟨[], 0⟩ 42).1 rfl,
    (get_session_notfound ⟨[(42, ⟨42, [⟨Role.system, "S"⟩], "t"⟩)], 43⟩ 42).2.1⟩

/-- Claim C9: `remove_session` deletes a registered identity (a subsequent
get fails with NotFound), is not an error on an absent identity and then
leaves the store exactly unchanged, and is therefore idempotent. -/
theorem remove_session_idempotent (m : SessionManager) (session_id : Nat) :
    ((m.remove_session session_id).get_session session_id = .error .NotFound) ∧
    (store_lookup session_id m.sessions = none → m.remove_session session_id = m) ∧
    ((m.remove_session session_id).remove_session session_id =
      m.remove_session session_id) := by
  refine ⟨?_, ?_, ?_⟩
  · simp only [SessionManager.get_session, SessionManager.remove_session,
      store_lookup_remove]
  · intro h
    unfold SessionManager.remove_session
    rw [store_remove_of_lookup_none session_id m.sessions h]
  · unfold SessionManager.remove_session
    rw [store_remove_of_lookup_none session_id _
      (store_lookup_remove session_id m.sessions)]

/-- Witness for the C9 theorem: removing identity 3 deletes it, and removing
the absent identity 7 returns the very same store. -/
theorem remove_session_idempotent_witness :
    ((SessionManager.remove_session
        ⟨[(3, ⟨3, [⟨Role.system, "S"⟩], "t"⟩)], 4⟩ 3).get_session 3 =
      .error .NotFound) ∧
    (SessionManager.remove_session ⟨[(3, ⟨3, [⟨Role.system, "S"⟩], "t"⟩)], 4⟩ 7 =
      ⟨[(3, ⟨3, [⟨Role.system, "S"⟩], "t"⟩)], 4⟩) :=
  ⟨(remove_session_idempotent ⟨[(3, ⟨3, [⟨Role.system, "S"⟩], "t"⟩)], 4⟩ 3).1,
    (remove_session_idempotent ⟨[(3, ⟨3, [⟨Role.system, "S"⟩], "t"⟩)], 4⟩ 7).2.1 rfl⟩

/-- Claim C5 fails on the code: `stream` takes no session-level lock and
suspends at `await` points between its user-message append (line 109) and its
assistant-message append (line 122), so on the shared event loop two
concurrent handlers for the same session may interleave their transcript
mutations.  The schedule below — both handlers append their user message
before either appends its completion — is an interleaving of the two
handlers' mutation traces, and it produces a transcript different from both
serialized executions, so at-most-one-generation-in-flight is not enforced. -/
theorem concurrent_streams_interleave :
    is_interleaving (handler_trace "qa" "ra") (handler_trace "qb" "rb")
        [SessAct.userMsg "qa", SessAct.userMsg "qb",
          SessAct.asstMsg "ra", SessAct.asstMsg "rb"] = true ∧
    apply_acts ⟨0, [⟨Role.system, "S"⟩], "t"⟩
        [SessAct.userMsg "qa", SessAct.userMsg "qb",
          SessAct.asstMsg "ra", SessAct.asstMsg "rb"] ≠
      apply_acts ⟨0, [⟨Role.system, "S"⟩], "t"⟩
        (handler_trace "qa" "ra" ++ handler_trace "qb" "rb") ∧
    apply_acts ⟨0, [⟨Role.system, "S"⟩], "t"⟩
        [SessAct.userMsg "qa", SessAct.userMsg "qb",
          SessAct.asstMsg "ra", SessAct.asstMsg "rb"] ≠
      apply_acts ⟨0, [⟨Role.system, "S"⟩], "t"⟩
        (handler_trace "qb" "rb" ++ handler_trace "qa" "ra") := by
  exact ⟨by decide, by decide, by decide⟩

end TurboGenius
